import Mathlib

/-!
Verification development for the activation-condition subsystem of a
joystick-remapping application (`gremlin/base_classes.py`).

The Python classes `KeyboardCondition`, `JoystickCondition`, `VJoyCondition`,
`InputActionCondition` and `ActivationCondition` are embedded shallowly:
each class becomes a structure, each method a function, and Python
exceptions become `Except Err`.  XML attribute text is modelled by the
type `AttrVal`: strings are kept literally, while integers, rationals
(for Python floats), booleans and GUIDs are kept in typed canonical
form, abstracting Python's exactly round-tripping `str`/`int`/`float`
conversions of those values.  The helper functions `safe_read`,
`parse_bool`, `parse_guid` and the enumerations `InputType` and
`ActivationRule` live outside the presented source file and are
modelled from the specification.
-/

namespace Gremlin

/-- An XML attribute value.  Strings are literal attribute text; the
numeric, boolean and GUID constructors stand for the canonical decimal,
`True`/`False` and 8-4-4-4-12 textual forms, which Python's
`str`/`int`/`float`/`uuid` conversions round-trip exactly. -/
inductive AttrVal where
  | str (s : String)
  | int (n : Int)
  | float (q : ℚ)
  | bool (b : Bool)
  | guid (g : ℕ)
deriving DecidableEq, Repr

/-- An `xml.etree.ElementTree.Element`: a tag, an ordered attribute list
and an ordered child list. -/
structure XmlNode where
  tag : String
  attrs : List (String × AttrVal)
  children : List XmlNode
deriving Repr

/-- `Element.get`: the value of the first attribute with the given name. -/
def XmlNode.get (n : XmlNode) (name : String) : Option AttrVal :=
  (n.attrs.find? (fun p => p.1 = name)).map (fun p => p.2)

/-- One step of `Element.set`: overwrite an existing attribute, else append. -/
def setAttr (attrs : List (String × AttrVal)) (name : String) (v : AttrVal) :
    List (String × AttrVal) :=
  if attrs.any (fun p => p.1 = name) then
    attrs.map (fun p => if p.1 = name then (name, v) else p)
  else attrs ++ [(name, v)]

/-- `Element.set`. -/
def XmlNode.set (n : XmlNode) (name : String) (v : AttrVal) : XmlNode :=
  { n with attrs := setAttr n.attrs name v }

/-- `Element.append`. -/
def XmlNode.append (n : XmlNode) (c : XmlNode) : XmlNode :=
  { n with children := n.children ++ [c] }

/-- `Element.findall(tag)`: the direct children with the given tag, in
document order. -/
def XmlNode.findall (n : XmlNode) (tag : String) : List XmlNode :=
  n.children.filter (fun c => c.tag = tag)

/-- Errors raised during decoding.  `schema` models the specification's
`SchemaError` (carrying a path and a reason); `keyError` models a raw
Python `KeyError` escaping from a dictionary lookup. -/
inductive Err where
  | schema (path : String) (reason : String)
  | keyError (key : String)
deriving DecidableEq, Repr

/-- Whether an error is a `SchemaError`. -/
def Err.isSchemaB : Err → Bool
  | .schema _ _ => true
  | .keyError _ => false

/-- Whether a decode result failed with a `SchemaError`. -/
def isSchemaFailure {α : Type} : Except Err α → Bool
  | .error (.schema _ _) => true
  | _ => false

/-- The attribute text seen by a reader that requests no coercion:
strings literally, other values in their canonical textual form. -/
def attrText : AttrVal → String
  | .str s => s
  | .int n => toString n
  | .float q => toString q.num ++ "/" ++ toString q.den
  | .bool b => if b then "True" else "False"
  | .guid g => toString g

/-- Modelled from the spec: `read_attr(node, name)` without coercion
(`safe_read` in the source).  Returns the attribute's string value and
fails with `SchemaError(missing)` when the attribute is absent. -/
def safe_read (node : XmlNode) (name : String) : Except Err String :=
  match node.get name with
  | none => .error (.schema (node.tag ++ "/" ++ name) "missing")
  | some v => .ok (attrText v)

/-- Modelled from the spec: `read_attr(node, name, int)` (`safe_read`
with integer coercion).  Absence gives `SchemaError(missing)`, a
non-integer value `SchemaError(malformed)`. -/
def safe_read_int (node : XmlNode) (name : String) : Except Err Int :=
  match node.get name with
  | none => .error (.schema (node.tag ++ "/" ++ name) "missing")
  | some (.int n) => .ok n
  | some (.str s) =>
    match s.toInt? with
    | some n => .ok n
    | none => .error (.schema (node.tag ++ "/" ++ name) "malformed")
  | some _ => .error (.schema (node.tag ++ "/" ++ name) "malformed")

/-- Modelled from the spec: `read_attr(node, name, float)` (`safe_read`
with float coercion); Python floats are modelled as rationals.  Absence
gives `SchemaError(missing)`, a non-numeric value `SchemaError(malformed)`. -/
def safe_read_float (node : XmlNode) (name : String) : Except Err ℚ :=
  match node.get name with
  | none => .error (.schema (node.tag ++ "/" ++ name) "missing")
  | some (.float q) => .ok q
  | some (.int n) => .ok (n : ℚ)
  | some _ => .error (.schema (node.tag ++ "/" ++ name) "malformed")

/-- ASCII lowercasing of one character (`str.lower` on the alphabet
the boolean literals use). -/
def lowerChar (c : Char) : Char :=
  if 'A' ≤ c ∧ c ≤ 'Z' then Char.ofNat (c.toNat + 32) else c

/-- ASCII lowercasing of a string. -/
def lowerStr (s : String) : String := ⟨s.data.map lowerChar⟩

/-- Modelled from the spec: `parse_bool`.  Accepts the canonical
truthy/falsy literals case-insensitively; everything else is a
`SchemaError`. -/
def parse_bool (s : String) : Except Err Bool :=
  if lowerStr s = "true" ∨ lowerStr s = "1" then .ok true
  else if lowerStr s = "false" ∨ lowerStr s = "0" then .ok false
  else .error (.schema s "malformed-bool")

/-- Modelled from the spec: `parse_guid` applied to `node.get(name)`.
Only the canonical 8-4-4-4-12 GUID text (abstracted as `AttrVal.guid`)
parses; absence or any other text is a `SchemaError`. -/
def parse_guid : Option AttrVal → Except Err ℕ
  | some (.guid g) => .ok g
  | some _ => .error (.schema "device-guid" "malformed-guid")
  | none => .error (.schema "device-guid" "missing")

/-- Modelled from the spec: the input-type tag (`types.InputType`),
a closed enumeration with a canonical lowercase string form. -/
inductive InputType where
  | JoystickAxis
  | JoystickButton
  | JoystickHat
  | Keyboard
deriving DecidableEq, Repr

/-- Modelled from the spec: `InputType.to_string`, total on the enum. -/
def InputType.to_string : InputType → String
  | .JoystickAxis => "axis"
  | .JoystickButton => "button"
  | .JoystickHat => "hat"
  | .Keyboard => "keyboard"

/-- Modelled from the spec: `InputType.to_enum`; unknown strings give a
`SchemaError(unknown-enum-value)`. -/
def InputType.to_enum (s : String) : Except Err InputType :=
  if s = "axis" then .ok .JoystickAxis
  else if s = "button" then .ok .JoystickButton
  else if s = "hat" then .ok .JoystickHat
  else if s = "keyboard" then .ok .Keyboard
  else .error (.schema ("input/" ++ s) "unknown-enum-value")

/-- Lift of `InputType.to_string` to the optionally-set `input_type`
field: applying it to an unset (`None`) field fails, as the lookup in
the external enum table does. -/
def InputType.to_string_of_opt : Option InputType → Except Err String
  | some t => .ok t.to_string
  | none => .error (.schema "input" "invalid-type-lookup")

/-- Modelled from the spec: the two-valued activation rule
(`types.ActivationRule`). -/
inductive ActivationRule where
  | All
  | Any
deriving DecidableEq, Repr

/-- The string-to-enum half of `ActivationCondition.rule_lookup`: a raw
dictionary lookup, so an unknown string raises `KeyError`. -/
def rule_to_enum (s : String) : Except Err ActivationRule :=
  if s = "all" then .ok .All
  else if s = "any" then .ok .Any
  else .error (.keyError s)

/-- The enum-to-string half of `ActivationCondition.rule_lookup`. -/
def rule_to_string : ActivationRule → String
  | .All => "all"
  | .Any => "any"

/-- Python `str` of the optional integer fields (`str(None) = "None"`). -/
def pyStrOptInt : Option Int → AttrVal
  | none => .str "None"
  | some n => .int n

/-- Python `str` of the optional boolean fields (`str(None) = "None"`). -/
def pyStrOptBool : Option Bool → AttrVal
  | none => .str "None"
  | some b => .bool b

/-- `KeyboardCondition`: comparison tag, scan code and extended flag,
the latter two `None` until populated. -/
structure KeyboardCondition where
  comparison : String
  scan_code : Option Int
  is_extended : Option Bool
deriving DecidableEq, Repr

/-- `KeyboardCondition.__init__`. -/
def KeyboardCondition.init : KeyboardCondition :=
  { comparison := "", scan_code := none, is_extended := none }

/-- `KeyboardCondition.from_xml`. -/
def KeyboardCondition.from_xml (_c : KeyboardCondition) (node : XmlNode) :
    Except Err KeyboardCondition :=
  match safe_read node "comparison" with
  | .error e => .error e
  | .ok comparison =>
    match safe_read_int node "scan-code" with
    | .error e => .error e
    | .ok sc =>
      match safe_read node "extended" with
      | .error e => .error e
      | .ok ext_s =>
        match parse_bool ext_s with
        | .error e => .error e
        | .ok ext =>
          .ok { comparison := comparison, scan_code := some sc,
                is_extended := some ext }

/-- `KeyboardCondition.to_xml`. -/
def KeyboardCondition.to_xml (c : KeyboardCondition) : XmlNode :=
  (((((XmlNode.mk "condition" [] []).set "condition-type" (.str "keyboard")).set
      "input" (.str "keyboard")).set
      "comparison" (.str c.comparison)).set
      "scan-code" (pyStrOptInt c.scan_code)).set
      "extended" (pyStrOptBool c.is_extended)

/-- `KeyboardCondition.is_valid`. -/
def KeyboardCondition.is_valid (c : KeyboardCondition) : Bool :=
  c.comparison ≠ "" && c.scan_code.isSome && c.is_extended.isSome

/-- `JoystickCondition`.  The `device_guid` field is dynamically typed
in Python: the constructor stores the integer `0`, decoding stores a
GUID; it is therefore modelled as an `AttrVal`.  The two-element
`range` list is modelled as a pair. -/
structure JoystickCondition where
  comparison : String
  device_guid : AttrVal
  input_type : Option InputType
  input_id : Int
  range : ℚ × ℚ
  device_name : String
deriving DecidableEq, Repr

/-- `JoystickCondition.__init__`. -/
def JoystickCondition.init : JoystickCondition :=
  { comparison := "", device_guid := .int 0, input_type := none,
    input_id := 0, range := (0, 0), device_name := "" }

/-- `JoystickCondition.from_xml`.  The `range` list is read only when
the decoded input type is `JoystickAxis`; otherwise the field keeps the
instance's previous value. -/
def JoystickCondition.from_xml (c : JoystickCondition) (node : XmlNode) :
    Except Err JoystickCondition :=
  match safe_read node "comparison" with
  | .error e => .error e
  | .ok comparison =>
    match safe_read node "input" with
    | .error e => .error e
    | .ok input_s =>
      match InputType.to_enum input_s with
      | .error e => .error e
      | .ok input_type =>
        match safe_read_int node "id" with
        | .error e => .error e
        | .ok input_id =>
          match parse_guid (node.get "device-guid") with
          | .error e => .error e
          | .ok g =>
            match safe_read node "device-name" with
            | .error e => .error e
            | .ok device_name =>
              if input_type = InputType.JoystickAxis then
                match safe_read_float node "range-low" with
                | .error e => .error e
                | .ok lo =>
                  match safe_read_float node "range-high" with
                  | .error e => .error e
                  | .ok hi =>
                    .ok { comparison := comparison, device_guid := .guid g,
                          input_type := some input_type, input_id := input_id,
                          range := (lo, hi), device_name := device_name }
              else
                .ok { comparison := comparison, device_guid := .guid g,
                      input_type := some input_type, input_id := input_id,
                      range := c.range, device_name := device_name }

/-- `JoystickCondition.to_xml`.  Fails only through the input-type
lookup on an unset `input_type`. -/
def JoystickCondition.to_xml (c : JoystickCondition) : Except Err XmlNode :=
  match InputType.to_string_of_opt c.input_type with
  | .error e => .error e
  | .ok input_s =>
    let node :=
      ((((((XmlNode.mk "condition" [] []).set "comparison" (.str c.comparison)).set
          "condition-type" (.str "joystick")).set
          "input" (.str input_s)).set
          "id" (.int c.input_id)).set
          "device-guid" c.device_guid).set
          "device-name" (.str c.device_name)
    if c.input_type = some InputType.JoystickAxis then
      .ok ((node.set "range-low" (.float c.range.1)).set
          "range-high" (.float c.range.2))
    else .ok node

/-- `JoystickCondition.is_valid`. -/
def JoystickCondition.is_valid (c : JoystickCondition) : Bool :=
  c.comparison ≠ "" && c.input_type.isSome

/-- `VJoyCondition`. -/
structure VJoyCondition where
  comparison : String
  vjoy_id : Int
  input_type : Option InputType
  input_id : Int
  range : ℚ × ℚ
deriving DecidableEq, Repr

/-- `VJoyCondition.__init__`. -/
def VJoyCondition.init : VJoyCondition :=
  { comparison := "", vjoy_id := 0, input_type := none,
    input_id := 0, range := (0, 0) }

/-- `VJoyCondition.from_xml`. -/
def VJoyCondition.from_xml (c : VJoyCondition) (node : XmlNode) :
    Except Err VJoyCondition :=
  match safe_read node "comparison" with
  | .error e => .error e
  | .ok comparison =>
    match safe_read node "input" with
    | .error e => .error e
    | .ok input_s =>
      match InputType.to_enum input_s with
      | .error e => .error e
      | .ok input_type =>
        match safe_read_int node "id" with
        | .error e => .error e
        | .ok input_id =>
          match safe_read_int node "vjoy-id" with
          | .error e => .error e
          | .ok vjoy_id =>
            if input_type = InputType.JoystickAxis then
              match safe_read_float node "range-low" with
              | .error e => .error e
              | .ok lo =>
                match safe_read_float node "range-high" with
                | .error e => .error e
                | .ok hi =>
                  .ok { comparison := comparison, vjoy_id := vjoy_id,
                        input_type := some input_type, input_id := input_id,
                        range := (lo, hi) }
            else
              .ok { comparison := comparison, vjoy_id := vjoy_id,
                    input_type := some input_type, input_id := input_id,
                    range := c.range }

/-- `VJoyCondition.to_xml`. -/
def VJoyCondition.to_xml (c : VJoyCondition) : Except Err XmlNode :=
  match InputType.to_string_of_opt c.input_type with
  | .error e => .error e
  | .ok input_s =>
    let node :=
      (((((XmlNode.mk "condition" [] []).set "comparison" (.str c.comparison)).set
          "condition-type" (.str "vjoy")).set
          "input" (.str input_s)).set
          "id" (.int c.input_id)).set
          "vjoy-id" (.int c.vjoy_id)
    if c.input_type = some InputType.JoystickAxis then
      .ok ((node.set "range-low" (.float c.range.1)).set
          "range-high" (.float c.range.2))
    else .ok node

/-- `VJoyCondition.is_valid`. -/
def VJoyCondition.is_valid (c : VJoyCondition) : Bool :=
  c.comparison ≠ "" && c.input_type.isSome

/-- `InputActionCondition`. -/
structure InputActionCondition where
  comparison : String
deriving DecidableEq, Repr

/-- `InputActionCondition.__init__`. -/
def InputActionCondition.init : InputActionCondition :=
  { comparison := "" }

/-- `InputActionCondition.from_xml`. -/
def InputActionCondition.from_xml (_c : InputActionCondition) (node : XmlNode) :
    Except Err InputActionCondition :=
  match safe_read node "comparison" with
  | .error e => .error e
  | .ok comparison => .ok { comparison := comparison }

/-- `InputActionCondition.to_xml`. -/
def InputActionCondition.to_xml (c : InputActionCondition) : XmlNode :=
  (((XmlNode.mk "condition" [] []).set "condition-type" (.str "action")).set
      "input" (.str "action")).set
      "comparison" (.str c.comparison)

/-- `InputActionCondition.is_valid` (inherited from `AbstractCondition`). -/
def InputActionCondition.is_valid (c : InputActionCondition) : Bool :=
  c.comparison ≠ ""

/-- The tagged union of the four concrete condition classes. -/
inductive Condition where
  | keyboard (c : KeyboardCondition)
  | joystick (c : JoystickCondition)
  | vjoy (c : VJoyCondition)
  | action (c : InputActionCondition)
deriving DecidableEq, Repr

/-- Virtual dispatch of `is_valid`. -/
def Condition.is_valid : Condition → Bool
  | .keyboard c => c.is_valid
  | .joystick c => c.is_valid
  | .vjoy c => c.is_valid
  | .action c => c.is_valid

/-- Virtual dispatch of `to_xml`. -/
def Condition.to_xml : Condition → Except Err XmlNode
  | .keyboard c => .ok c.to_xml
  | .joystick c => c.to_xml
  | .vjoy c => c.to_xml
  | .action c => .ok c.to_xml

/-- The `comparison` attribute of the shared base class. -/
def Condition.comparison : Condition → String
  | .keyboard c => c.comparison
  | .joystick c => c.comparison
  | .vjoy c => c.comparison
  | .action c => c.comparison

/-- The body of the decoding loop of `ActivationCondition.from_xml`:
read `condition-type`, look the constructor up in `condition_lookup`
(a raw dictionary, so an unknown tag raises `KeyError`), construct a
fresh instance and populate it from the node. -/
def conditionFromNode (n : XmlNode) : Except Err Condition :=
  match safe_read n "condition-type" with
  | .error e => .error e
  | .ok t =>
    if t = "keyboard" then (KeyboardCondition.init.from_xml n).map .keyboard
    else if t = "joystick" then (JoystickCondition.init.from_xml n).map .joystick
    else if t = "vjoy" then (VJoyCondition.init.from_xml n).map .vjoy
    else if t = "action" then (InputActionCondition.init.from_xml n).map .action
    else .error (.keyError t)

/-- The decoding loop of `ActivationCondition.from_xml`: fail-fast,
document order. -/
def decodeConditions : List XmlNode → Except Err (List Condition)
  | [] => .ok []
  | n :: rest =>
    match conditionFromNode n with
    | .error e => .error e
    | .ok c =>
      match decodeConditions rest with
      | .error e => .error e
      | .ok cs => .ok (c :: cs)

/-- `ActivationCondition`: an ordered list of conditions and a rule. -/
structure ActivationCondition where
  conditions : List Condition
  rule : ActivationRule
deriving DecidableEq, Repr

/-- `ActivationCondition.from_xml`: read the rule, then append every
decoded `<condition>` child to the existing list. -/
def ActivationCondition.from_xml (a : ActivationCondition) (node : XmlNode) :
    Except Err ActivationCondition :=
  match safe_read node "rule" with
  | .error e => .error e
  | .ok rule_s =>
    match rule_to_enum rule_s with
    | .error e => .error e
    | .ok rule =>
      match decodeConditions (node.findall "condition") with
      | .error e => .error e
      | .ok cs => .ok { rule := rule, conditions := a.conditions ++ cs }

/-- The encoding loop of `ActivationCondition.to_xml`: append the
encoding of every valid condition, skipping invalid ones. -/
def appendValid : List Condition → XmlNode → Except Err XmlNode
  | [], node => .ok node
  | c :: rest, node =>
    if c.is_valid then
      match c.to_xml with
      | .error e => .error e
      | .ok cn => appendValid rest (node.append cn)
    else appendValid rest node

/-- `ActivationCondition.to_xml`. -/
def ActivationCondition.to_xml (a : ActivationCondition) : Except Err XmlNode :=
  appendValid a.conditions
    ((XmlNode.mk "activation-condition" [] []).set "rule"
      (.str (rule_to_string a.rule)))

/-- Modelled from the spec: the input-state oracle consumed by the
evaluator (the evaluator itself is absent from the presented source
file and is implied by the data model).  Device identifiers are either
GUIDs or small integers, so they are passed as `AttrVal`; hat states
are reported as directional labels. -/
structure Oracle where
  axis_value : AttrVal → Int → ℚ
  button_state : AttrVal → Int → Bool
  hat_state : AttrVal → Int → String
  key_state : Int → Bool → Bool
  current_input_state : Bool

/-- Modelled from the spec: the pressed/released comparison for
buttons and keys; any other comparison degrades to `false`. -/
def evalPressed (cmp : String) (state : Bool) : Bool :=
  if cmp = "pressed" then state
  else if cmp = "released" then !state
  else false

/-- Modelled from the spec: the inside/outside comparison for an axis
position against an inclusive range; any other comparison degrades to
`false`. -/
def evalRange (cmp : String) (lo hi v : ℚ) : Bool :=
  if cmp = "inside" then decide (lo ≤ v ∧ v ≤ hi)
  else if cmp = "outside" then !decide (lo ≤ v ∧ v ≤ hi)
  else false

/-- Modelled from the spec: `evaluate` of a single condition; an
invalid condition evaluates to `false`. -/
def Condition.evaluate (c : Condition) (o : Oracle) : Bool :=
  if c.is_valid then
    match c with
    | .keyboard k =>
      match k.scan_code, k.is_extended with
      | some sc, some ext => evalPressed k.comparison (o.key_state sc ext)
      | _, _ => false
    | .joystick j =>
      match j.input_type with
      | some .JoystickAxis =>
        evalRange j.comparison j.range.1 j.range.2
          (o.axis_value j.device_guid j.input_id)
      | some .JoystickButton =>
        evalPressed j.comparison (o.button_state j.device_guid j.input_id)
      | some .JoystickHat =>
        decide (o.hat_state j.device_guid j.input_id = j.comparison)
      | _ => false
    | .vjoy v =>
      match v.input_type with
      | some .JoystickAxis =>
        evalRange v.comparison v.range.1 v.range.2
          (o.axis_value (.int v.vjoy_id) v.input_id)
      | some .JoystickButton =>
        evalPressed v.comparison (o.button_state (.int v.vjoy_id) v.input_id)
      | some .JoystickHat =>
        decide (o.hat_state (.int v.vjoy_id) v.input_id = v.comparison)
      | _ => false
    | .action i => evalPressed i.comparison o.current_input_state
  else false

/-- Modelled from the spec: `evaluate` of the composite; `All` is a
conjunction over the children (vacuously true), `Any` a disjunction
(vacuously false). -/
def ActivationCondition.evaluate (a : ActivationCondition) (o : Oracle) : Bool :=
  match a.rule with
  | .All => a.conditions.all (fun c => c.evaluate o)
  | .Any => a.conditions.any (fun c => c.evaluate o)

/-- The XML node a condition encodes to, with a dummy node in the
(never valid) error case. -/
def Condition.encodeD (c : Condition) : XmlNode :=
  (c.to_xml).toOption.getD (XmlNode.mk "condition" [] [])

/-- Whether a Joystick condition's `device_guid` field holds an actual
GUID value (rather than the integer constructor default). -/
def Condition.guidOkB : Condition → Bool
  | .joystick c =>
    match c.device_guid with
    | .guid _ => true
    | _ => false
  | _ => true

/-- Whether a Joystick or VJoy condition's `range` field is either
meaningful (axis input) or at the constructor default. -/
def Condition.rangeOkB : Condition → Bool
  | .joystick c => c.input_type = some .JoystickAxis || c.range = (0, 0)
  | .vjoy c => c.input_type = some .JoystickAxis || c.range = (0, 0)
  | _ => true

/-- Encode a single condition and decode the resulting node through
the composite's dispatch loop body. -/
def roundtripCondition (c : Condition) : Except Err Condition :=
  match c.to_xml with
  | .error e => .error e
  | .ok n => conditionFromNode n

/-- Decode an `<activation-condition>` node into a freshly constructed
composite, as the source's callers do. -/
def decodeActivation (n : XmlNode) : Except Err ActivationCondition :=
  ActivationCondition.from_xml { conditions := [], rule := .All } n

/-- Encode a composite and decode the result into a fresh composite. -/
def roundtripActivation (a : ActivationCondition) : Except Err ActivationCondition :=
  match a.to_xml with
  | .error e => .error e
  | .ok n => decodeActivation n

/-- The type-specific half of the validity rule, stated in the
specification's words for comparison with the source's `is_valid`. -/
def Condition.specRequirement : Condition → Prop
  | .keyboard c => c.scan_code ≠ none ∧ c.is_extended ≠ none
  | .joystick c => c.input_type ≠ none
  | .vjoy c => c.input_type ≠ none
  | .action _ => True

end Gremlin

deriving instance DecidableEq for Except

namespace Gremlin

/-! ## Concrete instances used by the claim witnesses and counterexamples -/

/-- A fully populated keyboard condition. -/
def wKb : Condition := .keyboard ⟨"pressed", some 30, some false⟩

/-- The XML node `wKb` encodes to. -/
def wKbNode : XmlNode :=
  ⟨"condition",
    [("condition-type", .str "keyboard"), ("input", .str "keyboard"),
     ("comparison", .str "pressed"), ("scan-code", .int 30),
     ("extended", .bool false)], []⟩

/-- A fully populated axis joystick condition. -/
def wJoyAxis : Condition :=
  .joystick ⟨"inside", .guid 77, some .JoystickAxis, 3, (-1/4, 3/4), "stick"⟩

/-- A composite whose children all round-trip. -/
def w1A : ActivationCondition := ⟨[wKb, wJoyAxis], .Any⟩

/-- A valid VJoy button condition carrying a non-default range: the
range is dropped by the encoder and resurfaces as the default on
decode, breaking the literal round-trip law. -/
def cexC1 : Condition := .vjoy ⟨"pressed", 1, some .JoystickButton, 2, (1, 1)⟩

/-- A composite with one valid and one invalid child. -/
def w2A : ActivationCondition :=
  ⟨[wKb, .joystick JoystickCondition.init], .All⟩

/-- The node `w2A` encodes to: only the valid child appears. -/
def w2N : XmlNode :=
  ⟨"activation-condition", [("rule", .str "all")], [wKbNode]⟩

/-- An activation-condition node with an unknown rule string. -/
def cexRuleNode : XmlNode :=
  ⟨"activation-condition", [("rule", .str "none")], []⟩

/-- An activation-condition node with an unknown condition-type. -/
def cexTypeNode : XmlNode :=
  ⟨"activation-condition", [("rule", .str "all")],
    [⟨"condition", [("condition-type", .str "mouse")], []⟩]⟩

/-- A keyboard condition node missing the extended attribute. -/
def kbMissNode : XmlNode :=
  ⟨"condition", [("comparison", .str "pressed"), ("scan-code", .int 30)], []⟩

/-- A joystick condition node missing the device-guid attribute. -/
def joyMissNode : XmlNode :=
  ⟨"condition",
    [("comparison", .str "pressed"), ("input", .str "button"),
     ("id", .int 1), ("device-name", .str "stick")], []⟩

/-- A vjoy condition node missing the vjoy-id attribute. -/
def vjoyMissNode : XmlNode :=
  ⟨"condition",
    [("comparison", .str "pressed"), ("input", .str "button"),
     ("id", .int 1)], []⟩

/-- An input-action condition node missing the comparison attribute. -/
def actMissNode : XmlNode := ⟨"condition", [("input", .str "action")], []⟩

/-- A VJoy axis condition with an explicit range. -/
def wVjAxis : VJoyCondition := ⟨"outside", 1, some .JoystickAxis, 2, (-1, 1)⟩

/-- The node `wVjAxis` encodes to. -/
def wVjAxisNode : XmlNode :=
  ⟨"condition",
    [("comparison", .str "outside"), ("condition-type", .str "vjoy"),
     ("input", .str "axis"), ("id", .int 2), ("vjoy-id", .int 1),
     ("range-low", .float (-1)), ("range-high", .float 1)], []⟩

/-- A VJoy button condition node that carries no range attributes. -/
def vjoyBtnNode : XmlNode :=
  ⟨"condition",
    [("comparison", .str "pressed"), ("condition-type", .str "vjoy"),
     ("input", .str "button"), ("id", .int 1), ("vjoy-id", .int 2)], []⟩

/-- The condition `vjoyBtnNode` decodes to from a fresh instance. -/
def wVjBtn : VJoyCondition := ⟨"pressed", 2, some .JoystickButton, 1, (0, 0)⟩

/-- A composite that already holds one condition before decoding. -/
def w9pre : ActivationCondition := ⟨[wKb], .All⟩

/-- A node holding one keyboard condition under rule any. -/
def w9node : XmlNode :=
  ⟨"activation-condition", [("rule", .str "any")], [wKbNode]⟩

/-- The result of decoding `w9node` into `w9pre`. -/
def w9res : ActivationCondition := ⟨[wKb, wKb], .Any⟩

/-- A composite whose children are all freshly constructed. -/
def w10A : ActivationCondition :=
  ⟨[.keyboard KeyboardCondition.init, .joystick JoystickCondition.init], .Any⟩

/-! ## Shape lemmas: the literal nodes produced by the encoders -/

theorem kb_to_xml_shape (cmp : String) (sc : Option Int) (b : Option Bool) :
    KeyboardCondition.to_xml ⟨cmp, sc, b⟩ =
      ⟨"condition",
        [("condition-type", .str "keyboard"), ("input", .str "keyboard"),
         ("comparison", .str cmp), ("scan-code", pyStrOptInt sc),
         ("extended", pyStrOptBool b)], []⟩ := rfl

theorem action_to_xml_shape (cmp : String) :
    InputActionCondition.to_xml ⟨cmp⟩ =
      ⟨"condition",
        [("condition-type", .str "action"), ("input", .str "action"),
         ("comparison", .str cmp)], []⟩ := rfl

theorem joy_to_xml_axis_shape (cmp : String) (gd : AttrVal) (iid : Int)
    (r : ℚ × ℚ) (nm : String) :
    JoystickCondition.to_xml ⟨cmp, gd, some .JoystickAxis, iid, r, nm⟩ =
      .ok ⟨"condition",
        [("comparison", .str cmp), ("condition-type", .str "joystick"),
         ("input", .str "axis"), ("id", .int iid), ("device-guid", gd),
         ("device-name", .str nm), ("range-low", .float r.1),
         ("range-high", .float r.2)], []⟩ := rfl

theorem joy_to_xml_nonaxis_shape (cmp : String) (gd : AttrVal) (iid : Int)
    (r : ℚ × ℚ) (nm : String) (t : InputType) (h : t ≠ .JoystickAxis) :
    JoystickCondition.to_xml ⟨cmp, gd, some t, iid, r, nm⟩ =
      .ok ⟨"condition",
        [("comparison", .str cmp), ("condition-type", .str "joystick"),
         ("input", .str t.to_string), ("id", .int iid), ("device-guid", gd),
         ("device-name", .str nm)], []⟩ := by
  cases t with
  | JoystickAxis => exact absurd rfl h
  | JoystickButton => rfl
  | JoystickHat => rfl
  | Keyboard => rfl

theorem vjoy_to_xml_axis_shape (cmp : String) (vid : Int) (iid : Int)
    (r : ℚ × ℚ) :
    VJoyCondition.to_xml ⟨cmp, vid, some .JoystickAxis, iid, r⟩ =
      .ok ⟨"condition",
        [("comparison", .str cmp), ("condition-type", .str "vjoy"),
         ("input", .str "axis"), ("id", .int iid), ("vjoy-id", .int vid),
         ("range-low", .float r.1), ("range-high", .float r.2)], []⟩ := rfl

theorem vjoy_to_xml_nonaxis_shape (cmp : String) (vid : Int) (iid : Int)
    (r : ℚ × ℚ) (t : InputType) (h : t ≠ .JoystickAxis) :
    VJoyCondition.to_xml ⟨cmp, vid, some t, iid, r⟩ =
      .ok ⟨"condition",
        [("comparison", .str cmp), ("condition-type", .str "vjoy"),
         ("input", .str t.to_string), ("id", .int iid),
         ("vjoy-id", .int vid)], []⟩ := by
  cases t with
  | JoystickAxis => exact absurd rfl h
  | JoystickButton => rfl
  | JoystickHat => rfl
  | Keyboard => rfl

/-! ## Per-variant round-trip lemmas -/

theorem kb_roundtrip (cmp : String) (sc : Int) (b : Bool) :
    conditionFromNode (KeyboardCondition.to_xml ⟨cmp, some sc, some b⟩) =
      .ok (.keyboard ⟨cmp, some sc, some b⟩) := by
  cases b <;> rfl

theorem action_roundtrip (cmp : String) :
    conditionFromNode (InputActionCondition.to_xml ⟨cmp⟩) =
      .ok (.action ⟨cmp⟩) := rfl

theorem joy_decode_axis (cmp : String) (g : ℕ) (iid : Int)
    (lo hi : ℚ) (nm : String) :
    conditionFromNode
      ⟨"condition",
        [("comparison", .str cmp), ("condition-type", .str "joystick"),
         ("input", .str "axis"), ("id", .int iid), ("device-guid", .guid g),
         ("device-name", .str nm), ("range-low", .float lo),
         ("range-high", .float hi)], []⟩ =
      .ok (.joystick ⟨cmp, .guid g, some .JoystickAxis, iid, (lo, hi), nm⟩) := rfl

theorem joy_roundtrip_axis (cmp : String) (g : ℕ) (iid : Int)
    (lo hi : ℚ) (nm : String) :
    roundtripCondition
        (.joystick ⟨cmp, .guid g, some .JoystickAxis, iid, (lo, hi), nm⟩) =
      .ok (.joystick ⟨cmp, .guid g, some .JoystickAxis, iid, (lo, hi), nm⟩) := by
  unfold roundtripCondition
  rw [show Condition.to_xml
        (.joystick ⟨cmp, .guid g, some .JoystickAxis, iid, (lo, hi), nm⟩) =
      JoystickCondition.to_xml ⟨cmp, .guid g, some .JoystickAxis, iid, (lo, hi), nm⟩
      from rfl,
    joy_to_xml_axis_shape]
  exact joy_decode_axis cmp g iid lo hi nm

theorem joy_roundtrip_nonaxis (cmp : String) (g : ℕ) (iid : Int)
    (nm : String) (t : InputType) (h : t ≠ .JoystickAxis) :
    roundtripCondition (.joystick ⟨cmp, .guid g, some t, iid, (0, 0), nm⟩) =
      .ok (.joystick ⟨cmp, .guid g, some t, iid, (0, 0), nm⟩) := by
  cases t with
  | JoystickAxis => exact absurd rfl h
  | JoystickButton => rfl
  | JoystickHat => rfl
  | Keyboard => rfl

theorem vjoy_decode_axis (cmp : String) (vid : Int) (iid : Int)
    (lo hi : ℚ) :
    conditionFromNode
      ⟨"condition",
        [("comparison", .str cmp), ("condition-type", .str "vjoy"),
         ("input", .str "axis"), ("id", .int iid), ("vjoy-id", .int vid),
         ("range-low", .float lo), ("range-high", .float hi)], []⟩ =
      .ok (.vjoy ⟨cmp, vid, some .JoystickAxis, iid, (lo, hi)⟩) := rfl

theorem vjoy_roundtrip_axis (cmp : String) (vid : Int) (iid : Int)
    (lo hi : ℚ) :
    roundtripCondition (.vjoy ⟨cmp, vid, some .JoystickAxis, iid, (lo, hi)⟩) =
      .ok (.vjoy ⟨cmp, vid, some .JoystickAxis, iid, (lo, hi)⟩) := by
  unfold roundtripCondition
  rw [show Condition.to_xml (.vjoy ⟨cmp, vid, some .JoystickAxis, iid, (lo, hi)⟩) =
      VJoyCondition.to_xml ⟨cmp, vid, some .JoystickAxis, iid, (lo, hi)⟩ from rfl,
    vjoy_to_xml_axis_shape]
  exact vjoy_decode_axis cmp vid iid lo hi

theorem vjoy_roundtrip_nonaxis (cmp : String) (vid : Int) (iid : Int)
    (t : InputType) (h : t ≠ .JoystickAxis) :
    roundtripCondition (.vjoy ⟨cmp, vid, some t, iid, (0, 0)⟩) =
      .ok (.vjoy ⟨cmp, vid, some t, iid, (0, 0)⟩) := by
  cases t with
  | JoystickAxis => exact absurd rfl h
  | JoystickButton => rfl
  | JoystickHat => rfl
  | Keyboard => rfl

/-! ## Error classification: every reader failure is a SchemaError -/

theorem safe_read_error_schema {node : XmlNode} {name : String} {e : Err}
    (h : safe_read node name = .error e) : e.isSchemaB = true := by
  unfold safe_read at h
  cases hg : node.get name with
  | none => rw [hg] at h; cases h; rfl
  | some v => rw [hg] at h; cases h

theorem safe_read_int_error_schema {node : XmlNode} {name : String} {e : Err}
    (h : safe_read_int node name = .error e) : e.isSchemaB = true := by
  unfold safe_read_int at h
  split at h
  · cases h; rfl
  · cases h
  · split at h
    · cases h
    · cases h; rfl
  · cases h; rfl

theorem safe_read_float_error_schema {node : XmlNode} {name : String} {e : Err}
    (h : safe_read_float node name = .error e) : e.isSchemaB = true := by
  unfold safe_read_float at h
  split at h
  · cases h; rfl
  · cases h
  · cases h
  · cases h; rfl

theorem parse_bool_error_schema {s : String} {e : Err}
    (h : parse_bool s = .error e) : e.isSchemaB = true := by
  unfold parse_bool at h
  by_cases h1 : lowerStr s = "true" ∨ lowerStr s = "1"
  · rw [if_pos h1] at h; cases h
  · rw [if_neg h1] at h
    by_cases h2 : lowerStr s = "false" ∨ lowerStr s = "0"
    · rw [if_pos h2] at h; cases h
    · rw [if_neg h2] at h; cases h; rfl

theorem parse_guid_error_schema {o : Option AttrVal} {e : Err}
    (h : parse_guid o = .error e) : e.isSchemaB = true := by
  cases o with
  | none => cases h; rfl
  | some v => cases v <;> first | (cases h; rfl) | cases h

theorem to_enum_error_schema {s : String} {e : Err}
    (h : InputType.to_enum s = .error e) : e.isSchemaB = true := by
  unfold InputType.to_enum at h
  by_cases h1 : s = "axis"
  · rw [if_pos h1] at h; cases h
  · rw [if_neg h1] at h
    by_cases h2 : s = "button"
    · rw [if_pos h2] at h; cases h
    · rw [if_neg h2] at h
      by_cases h3 : s = "hat"
      · rw [if_pos h3] at h; cases h
      · rw [if_neg h3] at h
        by_cases h4 : s = "keyboard"
        · rw [if_pos h4] at h; cases h
        · rw [if_neg h4] at h; cases h; rfl

theorem to_string_of_opt_error_schema {o : Option InputType} {e : Err}
    (h : InputType.to_string_of_opt o = .error e) : e.isSchemaB = true := by
  cases o with
  | none => cases h; rfl
  | some t => cases h

/-! ## Success implies presence of the read attributes -/

theorem safe_read_ok_present {node : XmlNode} {name : String} {s : String}
    (h : safe_read node name = .ok s) : (node.get name).isSome = true := by
  unfold safe_read at h
  cases hg : node.get name with
  | none => rw [hg] at h; cases h
  | some v => rfl

theorem safe_read_int_ok_present {node : XmlNode} {name : String} {n : Int}
    (h : safe_read_int node name = .ok n) : (node.get name).isSome = true := by
  unfold safe_read_int at h
  cases hg : node.get name with
  | none => rw [hg] at h; cases h
  | some v => rfl

theorem parse_guid_ok_present {o : Option AttrVal} {g : ℕ}
    (h : parse_guid o = .ok g) : o.isSome = true := by
  cases o with
  | none => cases h
  | some v => rfl

theorem isSchemaFailure_of_error {α : Type} {e : Err} (h : e.isSchemaB = true) :
    isSchemaFailure (α := α) (.error e) = true := by
  cases e with
  | schema p r => rfl
  | keyError k => cases h

/-! ## Variant decoders: every failure is a SchemaError -/

theorem kb_from_xml_error_schema {pre : KeyboardCondition} {node : XmlNode}
    {e : Err} (h : pre.from_xml node = .error e) : e.isSchemaB = true := by
  unfold KeyboardCondition.from_xml at h
  split at h
  · rename_i e1 h1; cases h; exact safe_read_error_schema h1
  · split at h
    · rename_i e1 h1; cases h; exact safe_read_int_error_schema h1
    · split at h
      · rename_i e1 h1; cases h; exact safe_read_error_schema h1
      · split at h
        · rename_i e1 h1; cases h; exact parse_bool_error_schema h1
        · cases h

theorem joy_from_xml_error_schema {pre : JoystickCondition} {node : XmlNode}
    {e : Err} (h : pre.from_xml node = .error e) : e.isSchemaB = true := by
  unfold JoystickCondition.from_xml at h
  split at h
  · rename_i e1 h1; cases h; exact safe_read_error_schema h1
  · split at h
    · rename_i e1 h1; cases h; exact safe_read_error_schema h1
    · split at h
      · rename_i e1 h1; cases h; exact to_enum_error_schema h1
      · split at h
        · rename_i e1 h1; cases h; exact safe_read_int_error_schema h1
        · split at h
          · rename_i e1 h1; cases h; exact parse_guid_error_schema h1
          · split at h
            · rename_i e1 h1; cases h; exact safe_read_error_schema h1
            · split at h
              · split at h
                · rename_i e1 h1; cases h; exact safe_read_float_error_schema h1
                · split at h
                  · rename_i e1 h1; cases h
                    exact safe_read_float_error_schema h1
                  · cases h
              · cases h

theorem vjoy_from_xml_error_schema {pre : VJoyCondition} {node : XmlNode}
    {e : Err} (h : pre.from_xml node = .error e) : e.isSchemaB = true := by
  unfold VJoyCondition.from_xml at h
  split at h
  · rename_i e1 h1; cases h; exact safe_read_error_schema h1
  · split at h
    · rename_i e1 h1; cases h; exact safe_read_error_schema h1
    · split at h
      · rename_i e1 h1; cases h; exact to_enum_error_schema h1
      · split at h
        · rename_i e1 h1; cases h; exact safe_read_int_error_schema h1
        · split at h
          · rename_i e1 h1; cases h; exact safe_read_int_error_schema h1
          · split at h
            · split at h
              · rename_i e1 h1; cases h; exact safe_read_float_error_schema h1
              · split at h
                · rename_i e1 h1; cases h
                  exact safe_read_float_error_schema h1
                · cases h
            · cases h

theorem action_from_xml_error_schema {pre : InputActionCondition}
    {node : XmlNode} {e : Err} (h : pre.from_xml node = .error e) :
    e.isSchemaB = true := by
  unfold InputActionCondition.from_xml at h
  split at h
  · rename_i e1 h1; cases h; exact safe_read_error_schema h1
  · cases h

/-! ## Variant decoders: success implies the required attributes exist -/

theorem kb_from_xml_ok_present {pre : KeyboardCondition} {node : XmlNode}
    {c : KeyboardCondition} (h : pre.from_xml node = .ok c) :
    (node.get "comparison").isSome = true ∧
    (node.get "scan-code").isSome = true ∧
    (node.get "extended").isSome = true := by
  unfold KeyboardCondition.from_xml at h
  split at h
  · cases h
  · rename_i cmp h1
    split at h
    · cases h
    · rename_i sc h2
      split at h
      · cases h
      · rename_i ext h3
        split at h
        · cases h
        · exact ⟨safe_read_ok_present h1, safe_read_int_ok_present h2,
            safe_read_ok_present h3⟩

theorem joy_from_xml_ok_present {pre : JoystickCondition} {node : XmlNode}
    {c : JoystickCondition} (h : pre.from_xml node = .ok c) :
    (node.get "comparison").isSome = true ∧
    (node.get "input").isSome = true ∧
    (node.get "id").isSome = true ∧
    (node.get "device-guid").isSome = true ∧
    (node.get "device-name").isSome = true := by
  unfold JoystickCondition.from_xml at h
  split at h
  · cases h
  · rename_i cmp h1
    split at h
    · cases h
    · rename_i inp h2
      split at h
      · cases h
      · rename_i t h3
        split at h
        · cases h
        · rename_i iid h4
          split at h
          · cases h
          · rename_i g h5
            split at h
            · cases h
            · rename_i nm h6
              exact ⟨safe_read_ok_present h1, safe_read_ok_present h2,
                safe_read_int_ok_present h4, parse_guid_ok_present h5,
                safe_read_ok_present h6⟩

theorem vjoy_from_xml_ok_present {pre : VJoyCondition} {node : XmlNode}
    {c : VJoyCondition} (h : pre.from_xml node = .ok c) :
    (node.get "comparison").isSome = true ∧
    (node.get "input").isSome = true ∧
    (node.get "id").isSome = true ∧
    (node.get "vjoy-id").isSome = true := by
  unfold VJoyCondition.from_xml at h
  split at h
  · cases h
  · rename_i cmp h1
    split at h
    · cases h
    · rename_i inp h2
      split at h
      · cases h
      · rename_i t h3
        split at h
        · cases h
        · rename_i iid h4
          split at h
          · cases h
          · rename_i vid h5
            exact ⟨safe_read_ok_present h1, safe_read_ok_present h2,
              safe_read_int_ok_present h4, safe_read_int_ok_present h5⟩

theorem action_from_xml_ok_present {pre : InputActionCondition}
    {node : XmlNode} {c : InputActionCondition} (h : pre.from_xml node = .ok c) :
    (node.get "comparison").isSome = true := by
  unfold InputActionCondition.from_xml at h
  split at h
  · cases h
  · rename_i cmp h1
    exact safe_read_ok_present h1

/-! ## Composite encoder characterization -/

theorem valid_to_xml_isOk {c : Condition} (h : c.is_valid = true) :
    ∃ n, c.to_xml = .ok n := by
  cases c with
  | keyboard k => exact ⟨_, rfl⟩
  | action i => exact ⟨_, rfl⟩
  | joystick j =>
    obtain ⟨cmp, gd, it, iid, r, nm⟩ := j
    have h2 : it.isSome = true := by
      unfold Condition.is_valid JoystickCondition.is_valid at h
      rw [Bool.and_eq_true] at h
      exact h.2
    cases it with
    | none => cases h2
    | some t =>
      by_cases ht : t = InputType.JoystickAxis
      · subst ht; exact ⟨_, joy_to_xml_axis_shape cmp gd iid r nm⟩
      · exact ⟨_, joy_to_xml_nonaxis_shape cmp gd iid r nm t ht⟩
  | vjoy v =>
    obtain ⟨cmp, vid, it, iid, r⟩ := v
    have h2 : it.isSome = true := by
      unfold Condition.is_valid VJoyCondition.is_valid at h
      rw [Bool.and_eq_true] at h
      exact h.2
    cases it with
    | none => cases h2
    | some t =>
      by_cases ht : t = InputType.JoystickAxis
      · subst ht; exact ⟨_, vjoy_to_xml_axis_shape cmp vid iid r⟩
      · exact ⟨_, vjoy_to_xml_nonaxis_shape cmp vid iid r t ht⟩

theorem encodeD_eq {c : Condition} {n : XmlNode} (h : c.to_xml = .ok n) :
    c.encodeD = n := by
  unfold Condition.encodeD
  rw [h]
  rfl

theorem to_xml_ok_tag {c : Condition} {n : XmlNode} (h : c.to_xml = .ok n) :
    n.tag = "condition" := by
  cases c with
  | keyboard k => cases h; rfl
  | action i => cases h; rfl
  | joystick j =>
    replace h : j.to_xml = .ok n := h
    unfold JoystickCondition.to_xml at h
    split at h
    · cases h
    · split at h
      · cases h; rfl
      · cases h; rfl
  | vjoy v =>
    replace h : v.to_xml = .ok n := h
    unfold VJoyCondition.to_xml at h
    split at h
    · cases h
    · split at h
      · cases h; rfl
      · cases h; rfl

theorem appendValid_eq (cs : List Condition) (node : XmlNode) :
    appendValid cs node =
      .ok ⟨node.tag, node.attrs,
        node.children ++ (cs.filter Condition.is_valid).map Condition.encodeD⟩ := by
  induction cs generalizing node with
  | nil =>
    obtain ⟨t, ats, chs⟩ := node
    simp only [appendValid, List.filter_nil, List.map_nil, List.append_nil]
  | cons c rest ih =>
    by_cases hv : c.is_valid = true
    · obtain ⟨n, hn⟩ := valid_to_xml_isOk hv
      unfold appendValid
      rw [if_pos hv, hn]
      dsimp only
      rw [ih]
      simp [XmlNode.append, List.filter_cons, hv, encodeD_eq hn]
    · unfold appendValid
      rw [if_neg hv, ih]
      simp only [List.filter_cons]
      rw [if_neg (by simpa using hv)]

theorem activation_to_xml_eq (a : ActivationCondition) :
    a.to_xml =
      .ok ⟨"activation-condition", [("rule", .str (rule_to_string a.rule))],
        (a.conditions.filter Condition.is_valid).map Condition.encodeD⟩ := by
  unfold ActivationCondition.to_xml
  rw [appendValid_eq]
  rfl

/-! ## Composite decoder characterization -/

theorem decodeConditions_length {ns : List XmlNode} {cs : List Condition}
    (h : decodeConditions ns = .ok cs) : cs.length = ns.length := by
  induction ns generalizing cs with
  | nil => cases h; rfl
  | cons n rest ih =>
    unfold decodeConditions at h
    split at h
    · cases h
    · rename_i c hc
      split at h
      · cases h
      · rename_i cs2 hcs
        cases h
        simp [ih hcs]

theorem activation_from_xml_step {a : ActivationCondition} {node : XmlNode}
    {rs : String} {r : ActivationRule} {cs : List Condition}
    (h1 : safe_read node "rule" = .ok rs) (h2 : rule_to_enum rs = .ok r)
    (h3 : decodeConditions (node.findall "condition") = .ok cs) :
    a.from_xml node = .ok ⟨a.conditions ++ cs, r⟩ := by
  unfold ActivationCondition.from_xml
  rw [h1]
  dsimp only
  rw [h2]
  dsimp only
  rw [h3]

theorem activation_from_xml_ok {a : ActivationCondition} {node : XmlNode}
    {b : ActivationCondition} (h : a.from_xml node = .ok b) :
    ∃ ds, b.conditions = a.conditions ++ ds ∧
      ds.length = (node.findall "condition").length := by
  unfold ActivationCondition.from_xml at h
  split at h
  · cases h
  · rename_i rs h1
    split at h
    · cases h
    · rename_i r h2
      split at h
      · cases h
      · rename_i cs h3
        cases h
        exact ⟨cs, rfl, decodeConditions_length h3⟩

/-! ## Round-trip assembly -/

theorem roundtripCondition_of_to_xml {c : Condition} {n : XmlNode}
    (h : c.to_xml = .ok n) : roundtripCondition c = conditionFromNode n := by
  unfold roundtripCondition
  rw [h]

theorem roundtripActivation_of_to_xml {a : ActivationCondition} {n : XmlNode}
    (h : a.to_xml = .ok n) : roundtripActivation a = decodeActivation n := by
  unfold roundtripActivation
  rw [h]

theorem cond_roundtrip {c : Condition} (hv : c.is_valid = true)
    (hg : c.guidOkB = true) (hr : c.rangeOkB = true) :
    roundtripCondition c = .ok c := by
  cases c with
  | keyboard k =>
    obtain ⟨cmp, sc, b⟩ := k
    unfold Condition.is_valid KeyboardCondition.is_valid at hv
    rw [Bool.and_eq_true, Bool.and_eq_true] at hv
    have hsc : sc.isSome = true := hv.1.2
    have hb : b.isSome = true := hv.2
    cases sc with
    | none => cases hsc
    | some n =>
      cases b with
      | none => cases hb
      | some bb => exact kb_roundtrip cmp n bb
  | action i =>
    obtain ⟨cmp⟩ := i
    exact action_roundtrip cmp
  | joystick j =>
    obtain ⟨cmp, gd, it, iid, r, nm⟩ := j
    have h2 : it.isSome = true := by
      unfold Condition.is_valid JoystickCondition.is_valid at hv
      rw [Bool.and_eq_true] at hv
      exact hv.2
    cases it with
    | none => cases h2
    | some t =>
      cases gd with
      | guid g =>
        by_cases ht : t = InputType.JoystickAxis
        · subst ht
          obtain ⟨lo, hi⟩ := r
          exact joy_roundtrip_axis cmp g iid lo hi nm
        · have hr0 : r = (0, 0) := by
            unfold Condition.rangeOkB at hr
            rw [Bool.or_eq_true] at hr
            rcases hr with h3 | h3
            · exact absurd (by simpa using h3) (by simpa using ht)
            · simpa using h3
          subst hr0
          exact joy_roundtrip_nonaxis cmp g iid nm t ht
      | str s => cases hg
      | int n => cases hg
      | float q => cases hg
      | bool bb => cases hg
  | vjoy v =>
    obtain ⟨cmp, vid, it, iid, r⟩ := v
    have h2 : it.isSome = true := by
      unfold Condition.is_valid VJoyCondition.is_valid at hv
      rw [Bool.and_eq_true] at hv
      exact hv.2
    cases it with
    | none => cases h2
    | some t =>
      by_cases ht : t = InputType.JoystickAxis
      · subst ht
        obtain ⟨lo, hi⟩ := r
        exact vjoy_roundtrip_axis cmp vid iid lo hi
      · have hr0 : r = (0, 0) := by
          unfold Condition.rangeOkB at hr
          rw [Bool.or_eq_true] at hr
          rcases hr with h3 | h3
          · exact absurd (by simpa using h3) (by simpa using ht)
          · simpa using h3
        subst hr0
        exact vjoy_roundtrip_nonaxis cmp vid iid t ht

theorem conditionFromNode_encodeD {c : Condition} (hv : c.is_valid = true)
    (hg : c.guidOkB = true) (hr : c.rangeOkB = true) :
    conditionFromNode c.encodeD = .ok c := by
  obtain ⟨n, hn⟩ := valid_to_xml_isOk hv
  have h1 := cond_roundtrip hv hg hr
  rw [roundtripCondition_of_to_xml hn] at h1
  rw [encodeD_eq hn]
  exact h1

theorem decodeConditions_encoded {cs : List Condition}
    (h : ∀ c ∈ cs, c.is_valid = true ∧ c.guidOkB = true ∧ c.rangeOkB = true) :
    decodeConditions (cs.map Condition.encodeD) = .ok cs := by
  induction cs with
  | nil => rfl
  | cons c rest ih =>
    obtain ⟨hv, hg, hr⟩ := h c (List.mem_cons_self c rest)
    unfold decodeConditions
    simp only [List.map_cons]
    rw [conditionFromNode_encodeD hv hg hr]
    dsimp only
    rw [ih (fun d hd => h d (List.mem_cons_of_mem c hd))]

theorem activation_roundtrip {a : ActivationCondition}
    (h : ∀ c ∈ a.conditions,
      c.is_valid = true ∧ c.guidOkB = true ∧ c.rangeOkB = true) :
    roundtripActivation a = .ok a := by
  obtain ⟨cs, r⟩ := a
  have hfilter : cs.filter Condition.is_valid = cs :=
    List.filter_eq_self.mpr (fun c hc => by simpa using (h c hc).1)
  have hx := activation_to_xml_eq ⟨cs, r⟩
  rw [hfilter] at hx
  rw [roundtripActivation_of_to_xml hx]
  have hchildren :
      XmlNode.findall
        ⟨"activation-condition", [("rule", .str (rule_to_string r))],
          cs.map Condition.encodeD⟩ "condition" = cs.map Condition.encodeD := by
    unfold XmlNode.findall
    refine List.filter_eq_self.mpr (fun n hn => ?_)
    obtain ⟨c, hc, hcn⟩ := List.mem_map.mp hn
    obtain ⟨m, hm⟩ := valid_to_xml_isOk (h c hc).1
    have : n.tag = "condition" := by
      rw [← hcn, encodeD_eq hm]
      exact to_xml_ok_tag hm
    simpa using this
  have hrule :
      safe_read
        ⟨"activation-condition", [("rule", .str (rule_to_string r))],
          cs.map Condition.encodeD⟩ "rule" = .ok (rule_to_string r) := rfl
  have henum : rule_to_enum (rule_to_string r) = .ok r := by
    cases r <;> rfl
  unfold decodeActivation
  rw [activation_from_xml_step hrule henum
    (by rw [hchildren]; exact decodeConditions_encoded h)]
  rfl

/-! ## Unknown rule and condition-type raise KeyError -/

theorem from_xml_unknown_rule {a : ActivationCondition} {node : XmlNode}
    {s : String} (h1 : node.get "rule" = some (.str s)) (h2 : s ≠ "all")
    (h3 : s ≠ "any") : a.from_xml node = .error (.keyError s) := by
  have hs : safe_read node "rule" = .ok s := by
    unfold safe_read
    rw [h1]
    rfl
  unfold ActivationCondition.from_xml
  rw [hs]
  dsimp only
  unfold rule_to_enum
  rw [if_neg h2, if_neg h3]

theorem conditionFromNode_unknown_type {child : XmlNode} {s : String}
    (h3 : child.get "condition-type" = some (.str s)) (h4 : s ≠ "keyboard")
    (h5 : s ≠ "joystick") (h6 : s ≠ "vjoy") (h7 : s ≠ "action") :
    conditionFromNode child = .error (.keyError s) := by
  have hct : safe_read child "condition-type" = .ok s := by
    unfold safe_read
    rw [h3]
    rfl
  unfold conditionFromNode
  rw [hct]
  dsimp only
  rw [if_neg h4, if_neg h5, if_neg h6, if_neg h7]

theorem from_xml_unknown_condition_type {a : ActivationCondition}
    {node child : XmlNode} {rest : List XmlNode} {r s : String}
    (h1 : node.get "rule" = some (.str r)) (hr : r = "all" ∨ r = "any")
    (h2 : node.findall "condition" = child :: rest)
    (h3 : child.get "condition-type" = some (.str s)) (h4 : s ≠ "keyboard")
    (h5 : s ≠ "joystick") (h6 : s ≠ "vjoy") (h7 : s ≠ "action") :
    a.from_xml node = .error (.keyError s) := by
  have hs : safe_read node "rule" = .ok r := by
    unfold safe_read
    rw [h1]
    rfl
  have henum : ∃ rr, rule_to_enum r = .ok rr := by
    rcases hr with h | h <;> subst h
    · exact ⟨.All, rfl⟩
    · exact ⟨.Any, rfl⟩
  obtain ⟨rr, henum⟩ := henum
  have hdec : decodeConditions (node.findall "condition") =
      .error (.keyError s) := by
    rw [h2]
    unfold decodeConditions
    rw [conditionFromNode_unknown_type h3 h4 h5 h6 h7]
  unfold ActivationCondition.from_xml
  rw [hs]
  dsimp only
  rw [henum]
  dsimp only
  rw [hdec]

/-! ## Missing required attributes give SchemaError -/

theorem kb_missing_schema {pre : KeyboardCondition} {node : XmlNode}
    (h : node.get "comparison" = none ∨ node.get "scan-code" = none ∨
      node.get "extended" = none) :
    isSchemaFailure (pre.from_xml node) = true := by
  cases hfx : pre.from_xml node with
  | error e => exact isSchemaFailure_of_error (kb_from_xml_error_schema hfx)
  | ok c =>
    obtain ⟨p1, p2, p3⟩ := kb_from_xml_ok_present hfx
    rcases h with h | h | h
    · rw [h] at p1; simp at p1
    · rw [h] at p2; simp at p2
    · rw [h] at p3; simp at p3

theorem joy_missing_schema {pre : JoystickCondition} {node : XmlNode}
    (h : node.get "comparison" = none ∨ node.get "input" = none ∨
      node.get "id" = none ∨ node.get "device-guid" = none ∨
      node.get "device-name" = none) :
    isSchemaFailure (pre.from_xml node) = true := by
  cases hfx : pre.from_xml node with
  | error e => exact isSchemaFailure_of_error (joy_from_xml_error_schema hfx)
  | ok c =>
    obtain ⟨p1, p2, p3, p4, p5⟩ := joy_from_xml_ok_present hfx
    rcases h with h | h | h | h | h
    · rw [h] at p1; simp at p1
    · rw [h] at p2; simp at p2
    · rw [h] at p3; simp at p3
    · rw [h] at p4; simp at p4
    · rw [h] at p5; simp at p5

theorem vjoy_missing_schema {pre : VJoyCondition} {node : XmlNode}
    (h : node.get "comparison" = none ∨ node.get "input" = none ∨
      node.get "id" = none ∨ node.get "vjoy-id" = none) :
    isSchemaFailure (pre.from_xml node) = true := by
  cases hfx : pre.from_xml node with
  | error e => exact isSchemaFailure_of_error (vjoy_from_xml_error_schema hfx)
  | ok c =>
    obtain ⟨p1, p2, p3, p4⟩ := vjoy_from_xml_ok_present hfx
    rcases h with h | h | h | h
    · rw [h] at p1; simp at p1
    · rw [h] at p2; simp at p2
    · rw [h] at p3; simp at p3
    · rw [h] at p4; simp at p4

theorem action_missing_schema {pre : InputActionCondition} {node : XmlNode}
    (h : node.get "comparison" = none) :
    isSchemaFailure (pre.from_xml node) = true := by
  cases hfx : pre.from_xml node with
  | error e => exact isSchemaFailure_of_error (action_from_xml_error_schema hfx)
  | ok c =>
    have p1 := action_from_xml_ok_present hfx
    rw [h] at p1; simp at p1

/-! ## Range attributes are written and read only for axis inputs -/

theorem joy_to_xml_range_attrs {j : JoystickCondition} {n : XmlNode}
    (h : j.to_xml = .ok n) :
    (j.input_type = some .JoystickAxis →
      n.get "range-low" = some (.float j.range.1) ∧
      n.get "range-high" = some (.float j.range.2)) ∧
    (j.input_type ≠ some .JoystickAxis →
      n.get "range-low" = none ∧ n.get "range-high" = none) := by
  obtain ⟨cmp, gd, it, iid, r, nm⟩ := j
  cases it with
  | none =>
    exact absurd h (by
      rw [show JoystickCondition.to_xml ⟨cmp, gd, none, iid, r, nm⟩ =
        .error (.schema "input" "invalid-type-lookup") from rfl]
      intro hx
      cases hx)
  | some t =>
    by_cases ht : t = InputType.JoystickAxis
    · subst ht
      rw [joy_to_xml_axis_shape] at h
      cases h
      exact ⟨fun _ => ⟨rfl, rfl⟩, fun hx => absurd rfl hx⟩
    · rw [joy_to_xml_nonaxis_shape cmp gd iid r nm t ht] at h
      cases h
      refine ⟨fun hx => absurd (by injection hx) ht, fun _ => ⟨rfl, rfl⟩⟩

theorem vjoy_to_xml_range_attrs {v : VJoyCondition} {n : XmlNode}
    (h : v.to_xml = .ok n) :
    (v.input_type = some .JoystickAxis →
      n.get "range-low" = some (.float v.range.1) ∧
      n.get "range-high" = some (.float v.range.2)) ∧
    (v.input_type ≠ some .JoystickAxis →
      n.get "range-low" = none ∧ n.get "range-high" = none) := by
  obtain ⟨cmp, vid, it, iid, r⟩ := v
  cases it with
  | none =>
    exact absurd h (by
      rw [show VJoyCondition.to_xml ⟨cmp, vid, none, iid, r⟩ =
        .error (.schema "input" "invalid-type-lookup") from rfl]
      intro hx
      cases hx)
  | some t =>
    by_cases ht : t = InputType.JoystickAxis
    · subst ht
      rw [vjoy_to_xml_axis_shape] at h
      cases h
      exact ⟨fun _ => ⟨rfl, rfl⟩, fun hx => absurd rfl hx⟩
    · rw [vjoy_to_xml_nonaxis_shape cmp vid iid r t ht] at h
      cases h
      refine ⟨fun hx => absurd (by injection hx) ht, fun _ => ⟨rfl, rfl⟩⟩

theorem joy_from_xml_range {pre : JoystickCondition} {node : XmlNode}
    {c : JoystickCondition} (h : pre.from_xml node = .ok c) :
    (c.input_type = some .JoystickAxis →
      ∃ lo hi, safe_read_float node "range-low" = .ok lo ∧
        safe_read_float node "range-high" = .ok hi ∧ c.range = (lo, hi)) ∧
    (c.input_type ≠ some .JoystickAxis → c.range = pre.range) := by
  unfold JoystickCondition.from_xml at h
  split at h
  · cases h
  · split at h
    · cases h
    · split at h
      · cases h
      · rename_i t h3
        split at h
        · cases h
        · split at h
          · cases h
          · split at h
            · cases h
            · split at h
              · rename_i haxis
                split at h
                · cases h
                · rename_i lo hlo
                  split at h
                  · cases h
                  · rename_i hi hhi
                    cases h
                    subst haxis
                    exact ⟨fun _ => ⟨lo, hi, hlo, hhi, rfl⟩,
                      fun hx => absurd rfl hx⟩
              · rename_i hnotaxis
                cases h
                refine ⟨fun hx => absurd (by injection hx) hnotaxis,
                  fun _ => rfl⟩

theorem vjoy_from_xml_range {pre : VJoyCondition} {node : XmlNode}
    {c : VJoyCondition} (h : pre.from_xml node = .ok c) :
    (c.input_type = some .JoystickAxis →
      ∃ lo hi, safe_read_float node "range-low" = .ok lo ∧
        safe_read_float node "range-high" = .ok hi ∧ c.range = (lo, hi)) ∧
    (c.input_type ≠ some .JoystickAxis → c.range = pre.range) := by
  unfold VJoyCondition.from_xml at h
  split at h
  · cases h
  · split at h
    · cases h
    · split at h
      · cases h
      · rename_i t h3
        split at h
        · cases h
        · split at h
          · cases h
          · split at h
            · rename_i haxis
              split at h
              · cases h
              · rename_i lo hlo
                split at h
                · cases h
                · rename_i hi hhi
                  cases h
                  subst haxis
                  exact ⟨fun _ => ⟨lo, hi, hlo, hhi, rfl⟩,
                    fun hx => absurd rfl hx⟩
            · rename_i hnotaxis
              cases h
              refine ⟨fun hx => absurd (by injection hx) hnotaxis,
                fun _ => rfl⟩

/-! ## Claim theorems -/

/-- C1, counterexample: the round-trip law fails as stated.  The VJoy
condition `cexC1` is valid (non-empty comparison, input type set), yet
decoding its encoding does not reproduce it: its non-default range on
a button input is dropped by the encoder and comes back as the
default. -/
theorem spec_C1_counterexample :
    Condition.is_valid cexC1 = true ∧
    roundtripCondition cexC1 ≠ .ok cexC1 := by
  constructor
  · rfl
  · decide

/-- C1, amended: decode after encode is the identity on every valid
condition whose device_guid field (Joystick) holds an actual GUID and
whose range field (Joystick, VJoy) is at its constructor default
unless the input type is JoystickAxis; likewise for every composite
all of whose children satisfy those conditions. -/
theorem spec_C1_roundtrip :
    (∀ c : Condition, c.is_valid = true → c.guidOkB = true →
      c.rangeOkB = true → roundtripCondition c = .ok c) ∧
    (∀ a : ActivationCondition,
      (∀ c ∈ a.conditions,
        c.is_valid = true ∧ c.guidOkB = true ∧ c.rangeOkB = true) →
      roundtripActivation a = .ok a) :=
  ⟨fun _ hv hg hr => cond_roundtrip hv hg hr,
   fun _ h => activation_roundtrip h⟩

/-- C1, witness: the keyboard condition `wKb` and the composite `w1A`
satisfy the amended hypotheses and round-trip exactly. -/
theorem spec_C1_witness :
    (Condition.is_valid wKb = true ∧ roundtripCondition wKb = .ok wKb) ∧
    roundtripActivation w1A = .ok w1A :=
  ⟨⟨rfl, spec_C1_roundtrip.1 wKb rfl rfl rfl⟩,
   spec_C1_roundtrip.2 w1A (by decide)⟩

/-- C2: the composite encoder emits an activation-condition element
whose children are exactly the encodings of the valid children, in
order; every valid child encodes successfully to exactly that node. -/
theorem spec_C2_encode_valid_children :
    ∀ (a : ActivationCondition) (n : XmlNode), a.to_xml = .ok n →
      n.tag = "activation-condition" ∧
      n.children =
        (a.conditions.filter Condition.is_valid).map Condition.encodeD ∧
      ∀ c ∈ a.conditions, c.is_valid = true → c.to_xml = .ok c.encodeD := by
  intro a n h
  rw [activation_to_xml_eq] at h
  cases h
  refine ⟨rfl, rfl, fun c _ hv => ?_⟩
  obtain ⟨m, hm⟩ := valid_to_xml_isOk hv
  rw [encodeD_eq hm]
  exact hm

/-- C2, witness: the composite `w2A` (one valid keyboard child, one
invalid fresh joystick child) encodes to `w2N`, whose only child is
the keyboard encoding. -/
theorem spec_C2_witness :
    w2A.to_xml = .ok w2N ∧
    w2N.children =
      (w2A.conditions.filter Condition.is_valid).map Condition.encodeD :=
  ⟨rfl, (spec_C2_encode_valid_children w2A w2N rfl).2.1⟩

/-- C3: a condition is valid exactly when its comparison is non-empty
and its type-specific requirement (stated from the spec) holds. -/
theorem spec_C3_is_valid_iff :
    ∀ c : Condition,
      c.is_valid = true ↔ c.comparison ≠ "" ∧ c.specRequirement := by
  intro c
  cases c with
  | keyboard k =>
    simp [Condition.is_valid, KeyboardCondition.is_valid, Condition.comparison,
      Condition.specRequirement, Bool.and_eq_true, Option.isSome_iff_ne_none,
      and_assoc]
  | joystick j =>
    simp [Condition.is_valid, JoystickCondition.is_valid, Condition.comparison,
      Condition.specRequirement, Bool.and_eq_true, Option.isSome_iff_ne_none]
  | vjoy v =>
    simp [Condition.is_valid, VJoyCondition.is_valid, Condition.comparison,
      Condition.specRequirement, Bool.and_eq_true, Option.isSome_iff_ne_none]
  | action i =>
    simp [Condition.is_valid, InputActionCondition.is_valid,
      Condition.comparison, Condition.specRequirement]

/-- C4, counterexample: decoding a node whose rule is the unknown
string none, or whose child condition-type is the unknown string
mouse, fails with a raw KeyError, not with a SchemaError. -/
theorem spec_C4_counterexample :
    decodeActivation cexRuleNode = .error (.keyError "none") ∧
    isSchemaFailure (decodeActivation cexRuleNode) = false ∧
    decodeActivation cexTypeNode = .error (.keyError "mouse") ∧
    isSchemaFailure (decodeActivation cexTypeNode) = false := by
  refine ⟨rfl, rfl, rfl, rfl⟩

/-- C4, amended: an unknown rule string, and an unknown condition-type
on the first condition child (once the rule is known), each make
from_xml fail with a KeyError carrying the unknown string - not with a
SchemaError naming the element and attribute. -/
theorem spec_C4_keyerror :
    (∀ (a : ActivationCondition) (node : XmlNode) (s : String),
      node.get "rule" = some (.str s) → s ≠ "all" → s ≠ "any" →
      a.from_xml node = .error (.keyError s)) ∧
    (∀ (a : ActivationCondition) (node child : XmlNode)
      (rest : List XmlNode) (r s : String),
      node.get "rule" = some (.str r) → (r = "all" ∨ r = "any") →
      node.findall "condition" = child :: rest →
      child.get "condition-type" = some (.str s) → s ≠ "keyboard" →
      s ≠ "joystick" → s ≠ "vjoy" → s ≠ "action" →
      a.from_xml node = .error (.keyError s)) :=
  ⟨fun _ _ _ h1 h2 h3 => from_xml_unknown_rule h1 h2 h3,
   fun _ _ _ _ _ _ h1 hr h2 h3 h4 h5 h6 h7 =>
     from_xml_unknown_condition_type h1 hr h2 h3 h4 h5 h6 h7⟩

/-- C4, witness: the two concrete nodes of the counterexample, decoded
through the amended theorem. -/
theorem spec_C4_witness :
    ActivationCondition.from_xml ⟨[], .All⟩ cexRuleNode =
      .error (.keyError "none") ∧
    ActivationCondition.from_xml ⟨[], .All⟩ cexTypeNode =
      .error (.keyError "mouse") :=
  ⟨spec_C4_keyerror.1 ⟨[], .All⟩ cexRuleNode "none" rfl (by decide) (by decide),
   spec_C4_keyerror.2 ⟨[], .All⟩ cexTypeNode
     ⟨"condition", [("condition-type", .str "mouse")], []⟩ [] "all" "mouse"
     rfl (Or.inl rfl) rfl rfl (by decide) (by decide) (by decide) (by decide)⟩

/-- C5: for each variant, a node missing one of the required
attributes makes from_xml fail with a SchemaError. -/
theorem spec_C5_missing_attr :
    (∀ (pre : KeyboardCondition) (node : XmlNode),
      (node.get "comparison" = none ∨ node.get "scan-code" = none ∨
        node.get "extended" = none) →
      isSchemaFailure (pre.from_xml node) = true) ∧
    (∀ (pre : JoystickCondition) (node : XmlNode),
      (node.get "comparison" = none ∨ node.get "input" = none ∨
        node.get "id" = none ∨ node.get "device-guid" = none ∨
        node.get "device-name" = none) →
      isSchemaFailure (pre.from_xml node) = true) ∧
    (∀ (pre : VJoyCondition) (node : XmlNode),
      (node.get "comparison" = none ∨ node.get "input" = none ∨
        node.get "id" = none ∨ node.get "vjoy-id" = none) →
      isSchemaFailure (pre.from_xml node) = true) ∧
    (∀ (pre : InputActionCondition) (node : XmlNode),
      node.get "comparison" = none →
      isSchemaFailure (pre.from_xml node) = true) :=
  ⟨fun _ _ h => kb_missing_schema h, fun _ _ h => joy_missing_schema h,
   fun _ _ h => vjoy_missing_schema h, fun _ _ h => action_missing_schema h⟩

/-- C5, witness: one concrete missing-attribute node per variant. -/
theorem spec_C5_witness :
    isSchemaFailure (KeyboardCondition.init.from_xml kbMissNode) = true ∧
    isSchemaFailure (JoystickCondition.init.from_xml joyMissNode) = true ∧
    isSchemaFailure (VJoyCondition.init.from_xml vjoyMissNode) = true ∧
    isSchemaFailure (InputActionCondition.init.from_xml actMissNode) = true :=
  ⟨spec_C5_missing_attr.1 _ _ (Or.inr (Or.inr rfl)),
   spec_C5_missing_attr.2.1 _ _ (Or.inr (Or.inr (Or.inr (Or.inl rfl)))),
   spec_C5_missing_attr.2.2.1 _ _ (Or.inr (Or.inr (Or.inr rfl))),
   spec_C5_missing_attr.2.2.2 _ _ rfl⟩

/-- C6: the encoders write the range attributes exactly when the input
type is JoystickAxis, and the decoders read them exactly when the
decoded input is JoystickAxis, otherwise keeping the instance's
previous range and tolerating their absence. -/
theorem spec_C6_range_axis :
    (∀ (j : JoystickCondition) (n : XmlNode), j.to_xml = .ok n →
      ((n.get "range-low" ≠ none ∧ n.get "range-high" ≠ none) ↔
        j.input_type = some .JoystickAxis)) ∧
    (∀ (v : VJoyCondition) (n : XmlNode), v.to_xml = .ok n →
      ((n.get "range-low" ≠ none ∧ n.get "range-high" ≠ none) ↔
        v.input_type = some .JoystickAxis)) ∧
    (∀ (pre : JoystickCondition) (node : XmlNode) (c : JoystickCondition),
      pre.from_xml node = .ok c →
      (c.input_type = some .JoystickAxis →
        ∃ lo hi, safe_read_float node "range-low" = .ok lo ∧
          safe_read_float node "range-high" = .ok hi ∧ c.range = (lo, hi)) ∧
      (c.input_type ≠ some .JoystickAxis → c.range = pre.range)) ∧
    (∀ (pre : VJoyCondition) (node : XmlNode) (c : VJoyCondition),
      pre.from_xml node = .ok c →
      (c.input_type = some .JoystickAxis →
        ∃ lo hi, safe_read_float node "range-low" = .ok lo ∧
          safe_read_float node "range-high" = .ok hi ∧ c.range = (lo, hi)) ∧
      (c.input_type ≠ some .JoystickAxis → c.range = pre.range)) := by
  refine ⟨?_, ?_, fun _ _ _ h => joy_from_xml_range h,
    fun _ _ _ h => vjoy_from_xml_range h⟩
  · intro j n h
    obtain ⟨hyes, hno⟩ := joy_to_xml_range_attrs h
    by_cases hx : j.input_type = some .JoystickAxis
    · obtain ⟨hl, hr⟩ := hyes hx
      exact iff_of_true ⟨by rw [hl]; simp, by rw [hr]; simp⟩ hx
    · obtain ⟨hl, hr⟩ := hno hx
      exact iff_of_false (fun hc => hc.1 hl) hx
  · intro v n h
    obtain ⟨hyes, hno⟩ := vjoy_to_xml_range_attrs h
    by_cases hx : v.input_type = some .JoystickAxis
    · obtain ⟨hl, hr⟩ := hyes hx
      exact iff_of_true ⟨by rw [hl]; simp, by rw [hr]; simp⟩ hx
    · obtain ⟨hl, hr⟩ := hno hx
      exact iff_of_false (fun hc => hc.1 hl) hx

/-- C6, witness: the axis VJoy condition encodes with both range
attributes present; a button node without range attributes decodes
without error and keeps the fresh instance's default range. -/
theorem spec_C6_witness :
    (wVjAxisNode.get "range-low" ≠ none ∧
      wVjAxisNode.get "range-high" ≠ none) ∧
    VJoyCondition.init.from_xml vjoyBtnNode = .ok wVjBtn ∧
    wVjBtn.range = VJoyCondition.init.range :=
  ⟨(spec_C6_range_axis.2.1 wVjAxis wVjAxisNode rfl).mpr rfl, rfl,
   (spec_C6_range_axis.2.2.2 VJoyCondition.init vjoyBtnNode wVjBtn rfl).2
     (by decide)⟩

/-- C7: evaluating an empty composite returns true under the All rule
and false under the Any rule, whatever the oracle. -/
theorem spec_C7_empty_evaluate :
    ∀ o : Oracle,
      ActivationCondition.evaluate ⟨[], .All⟩ o = true ∧
      ActivationCondition.evaluate ⟨[], .Any⟩ o = false :=
  fun _ => ⟨rfl, rfl⟩

/-- C8: encoding a composite is total; whatever the validity of its
children, to_xml produces a node. -/
theorem spec_C8_to_xml_total :
    ∀ a : ActivationCondition, ∃ n, a.to_xml = .ok n :=
  fun a => ⟨_, activation_to_xml_eq a⟩

/-- C9: the composite decoder appends the decoded children to the
instance's existing list, one per condition child of the node, never
clearing it. -/
theorem spec_C9_from_xml_appends :
    ∀ (a : ActivationCondition) (node : XmlNode) (b : ActivationCondition),
      a.from_xml node = .ok b →
      ∃ ds, b.conditions = a.conditions ++ ds ∧
        ds.length = (node.findall "condition").length :=
  fun _ _ _ h => activation_from_xml_ok h

/-- C9, witness: decoding `w9node` into `w9pre` yields `w9res`, whose
list starts with the pre-existing condition. -/
theorem spec_C9_witness :
    ∃ ds, w9res.conditions = w9pre.conditions ++ ds ∧
      ds.length = (w9node.findall "condition").length :=
  spec_C9_from_xml_appends w9pre w9node w9res rfl

/-- C10: each freshly constructed variant has an empty comparison and
is invalid; a composite whose children are all fresh encodes to an
element with no children. -/
theorem spec_C10_fresh_invalid :
    (KeyboardCondition.init.comparison = "" ∧
      KeyboardCondition.init.is_valid = false) ∧
    (JoystickCondition.init.comparison = "" ∧
      JoystickCondition.init.is_valid = false) ∧
    (VJoyCondition.init.comparison = "" ∧
      VJoyCondition.init.is_valid = false) ∧
    (InputActionCondition.init.comparison = "" ∧
      InputActionCondition.init.is_valid = false) ∧
    ∀ a : ActivationCondition,
      (∀ c ∈ a.conditions, c = .keyboard KeyboardCondition.init ∨
        c = .joystick JoystickCondition.init ∨
        c = .vjoy VJoyCondition.init ∨
        c = .action InputActionCondition.init) →
      ∃ n, a.to_xml = .ok n ∧ n.children = [] := by
  refine ⟨⟨rfl, rfl⟩, ⟨rfl, rfl⟩, ⟨rfl, rfl⟩, ⟨rfl, rfl⟩, ?_⟩
  intro a h
  refine ⟨_, activation_to_xml_eq a, ?_⟩
  have hnil : a.conditions.filter Condition.is_valid = [] := by
    rw [List.filter_eq_nil_iff]
    intro c hc
    rcases h c hc with h | h | h | h <;> subst h <;> decide
  rw [hnil]
  rfl

/-- C10, witness: the all-fresh composite `w10A` encodes to a node
with no children. -/
theorem spec_C10_witness : ∃ n, w10A.to_xml = .ok n ∧ n.children = [] :=
  spec_C10_fresh_invalid.2.2.2.2 w10A (by decide)

end Gremlin
